import Mathlib

/-!
Verification of the tightrope workspace/analysis service.

The embedding below translates the two API handlers
(`src/pages/api/workspaces/create.ts`, `src/pages/api/workspaces/[id]/status.ts`),
the workspace read handler (`src/pages/api/workspaces/[id].ts`) and the
client polling loop (`src/pages/workspaces/[id].tsx`) into pure Lean
functions.  Database access is modelled by explicit state passing on a `DB`
record; every analyzer HTTP interaction is modelled by a response parameter
plus a trace of the network calls the handler issued.  JSON fields that may
be absent or null are `Option` values; the JavaScript `x ?? y` operator is
an `Option` match, and `x || y` on strings additionally treats the empty
string as falsy, exactly as in the source.
-/

namespace Tightrope

/-- Opaque analyzer result document (`result JSONB`); the handlers never
inspect its contents, only its presence. -/
abbrev Doc := String

/-- A `Workspace` row: unique id, display name, repository URL, owner email.
Timestamps are omitted; no verified property depends on them. -/
structure Workspace where
  workspace_id : String
  name : String
  github_repository : String
  email : String
deriving DecidableEq

/-- An `Analysis` row, one-to-one with a workspace (`workspaceId` is the key
in `DB.analyses`).  The `id`, `startedAt` and `updatedAt` columns are
omitted; no verified property depends on them. -/
structure Analysis where
  external_workspace_id : Option String := none
  status : String := "pending"
  progress : Option Int := none
  message : Option String := none
  current_step : Option String := none
  status_url : Option String := none
  result_url : Option String := none
  result : Option Doc := none
  completedAt : Option Nat := none
deriving DecidableEq

/-- The persistence store: point lookups by workspace id. -/
structure DB where
  workspaces : String → Option Workspace
  analyses : String → Option Analysis

def DB.empty : DB := { workspaces := fun _ => none, analyses := fun _ => none }

def findWorkspace (db : DB) (id : String) : Option Workspace :=
  db.workspaces id

def findAnalysis (db : DB) (id : String) : Option Analysis :=
  db.analyses id

def insertWorkspace (db : DB) (w : Workspace) : DB :=
  { db with workspaces := fun j => if j = w.workspace_id then some w else db.workspaces j }

def insertAnalysis (db : DB) (id : String) (a : Analysis) : DB :=
  { db with analyses := fun j => if j = id then some a else db.analyses j }

/-- `prisma.analysis.update({where:{workspaceId:id}, data:...})`: a
read-modify-write restricted to the fields `f` touches. -/
def updateAnalysis (db : DB) (id : String) (f : Analysis → Analysis) : DB :=
  { db with analyses := fun j => if j = id then (db.analyses j).map f else db.analyses j }

/-- Outcome of one analyzer `fetch`: the body parsed (`ok`), a non-success
HTTP response (`resp.ok === false`), or a thrown network/parse error. -/
inductive Fetched (α : Type) where
  | ok (data : α)
  | notOk
  | err
deriving DecidableEq

/-- Body of `GET <status_url>`: every field may be absent (or JSON null,
which the `??` fallbacks treat identically). -/
structure StatusData where
  status : Option String := none
  progress : Option Int := none
  message : Option String := none
  current_step : Option String := none
  workspace_id : Option String := none
deriving DecidableEq

/-- Body of `POST /api/analyze`, when it parsed as JSON. -/
structure AnalyzeData where
  workspace_id : Option String := none
  status : Option String := none
  status_url : Option String := none
  result_url : Option String := none
deriving DecidableEq

/-- Outcome of the submit `fetch` in the create handler: `threw` for a
network error; otherwise the HTTP success flag (which the handler never
reads) and the JSON body, `none` when `resp.json()` rejected
(`.catch(() => null)`). -/
inductive SubmitOutcome where
  | threw
  | returned (ok : Bool) (body : Option AnalyzeData)
deriving DecidableEq

/-- One analyzer HTTP call issued by a handler. -/
inductive NetCall where
  | submitFetch
  | statusFetch (url : String)
  | resultFetch (url : String)
deriving DecidableEq

/-- JSON-shaped handler response for the status endpoint:
`res.status(code).json({...})` with the optional body fields flattened. -/
structure ApiResp where
  code : Nat
  error : Option String := none
  status : Option String := none
  analysis : Option Analysis := none
deriving DecidableEq

/-- Response of the create endpoint: workspace plus optional analysis
summary. -/
structure AnalysisSummary where
  status : String
  status_url : Option String
  result_url : Option String
  hasResult : Bool
deriving DecidableEq

structure CreateResp where
  code : Nat
  error : Option String := none
  workspace : Option Workspace := none
  analysis : Option AnalysisSummary := none
deriving DecidableEq

/-- Response of the workspace read endpoint. -/
structure GetResp where
  code : Nat
  error : Option String := none
  workspace : Option Workspace := none
  analysis : Option Analysis := none
deriving DecidableEq

/-- The analyzer's fixed base origin, `http://0.0.0.0:8000` in the source. -/
def analyzerBase : String := "http://0.0.0.0:8000"

/-- JavaScript template interpolation of a possibly-null string:
`${null}` renders as the string `"null"`. -/
def jsInterp (o : Option String) : String := o.getD "null"

/-- `l₁` is a leading segment of `l₂` (kernel-computable). -/
def listPrefixOf : List Char → List Char → Bool
  | [], _ => true
  | _ :: _, [] => false
  | c :: cs, d :: ds => c = d && listPrefixOf cs ds

/-- `needle` occurs contiguously inside the second list. -/
def listInfixOf (needle : List Char) : List Char → Bool
  | [] => listPrefixOf needle []
  | c :: cs => listPrefixOf needle (c :: cs) || listInfixOf needle cs

/-- JavaScript `s.includes(pat)`. -/
def jsIncludes (s pat : String) : Bool := listInfixOf pat.data s.data

/-- JavaScript `s.startsWith(pre)`. -/
def jsStartsWith (s pre : String) : Bool := listPrefixOf pre.data s.data

def dropWs : List Char → List Char
  | [] => []
  | c :: cs => if c.isWhitespace then dropWs cs else c :: cs

/-- JavaScript `s.trim()`: strip whitespace from both ends. -/
def jsTrim (s : String) : String :=
  String.mk ((dropWs ((dropWs s.data).reverse)).reverse)

/-- Step 6 of `checkStatus`, from `status.ts`:
`status: statusData.status || analysis.status` (`||`: empty string is
falsy) and `progress/message/current_step: statusData.x ?? analysis.x`
(`??`: only null/absent falls back). -/
def mergeStatus (sd : StatusData) (a : Analysis) : Analysis :=
  { a with
    status := (match sd.status with
      | some s => if s = "" then a.status else s
      | none => a.status),
    progress := (match sd.progress with
      | some p => some p
      | none => a.progress),
    message := (match sd.message with
      | some m => some m
      | none => a.message),
    current_step := (match sd.current_step with
      | some c => some c
      | none => a.current_step) }

/-- `GET /workspaces/{id}/status` (`src/pages/api/workspaces/[id]/status.ts`).
`id = ""` models a falsy/non-string id; `session` is the verified email, if
any.  `statusResp` and `resultResp` are the analyzer's answers to the at
most one status fetch and at most one result fetch; the third component of
the result is the trace of analyzer calls actually issued. -/
def checkStatus (db : DB) (id : String) (session : Option String)
    (statusResp : Fetched StatusData) (resultResp : Fetched Doc) (now : Nat) :
    ApiResp × DB × List NetCall :=
  if id = "" then ({ code := 400, error := some "Invalid id" }, db, [])
  else match session with
  | none => ({ code := 401, error := some "Unauthorized" }, db, [])
  | some _email =>
    match findAnalysis db id with
    | none => ({ code := 404, error := some "No analysis record" }, db, [])
    | some a =>
      match a.result with
      | some _ =>
        ({ code := 200, status := some "completed", analysis := some a }, db, [])
      | none =>
        if a.status_url = none ∧ a.external_workspace_id = none then
          ({ code := 200,
             status := some (if a.status = "" then "pending" else a.status) }, db, [])
        else
          let statusUrl :=
            a.status_url.getD
              (analyzerBase ++ "/api/status/" ++ jsInterp a.external_workspace_id)
          match statusResp with
          | .err =>
            ({ code := 500, error := some "Internal server error" }, db,
             [.statusFetch statusUrl])
          | .notOk =>
            ({ code := 502, error := some "Failed to fetch status from analyzer" }, db,
             [.statusFetch statusUrl])
          | .ok sd =>
            let merged := mergeStatus sd a
            let db1 := updateAnalysis db id (fun r =>
              { r with status := merged.status, progress := merged.progress,
                       message := merged.message, current_step := merged.current_step })
            if sd.status = some "completed" then
              let externalId : Option String :=
                (match a.external_workspace_id with
                 | some e => some e
                 | none => sd.workspace_id)
              let resultUrl :=
                a.result_url.getD (analyzerBase ++ "/api/result/" ++ jsInterp externalId)
              match resultResp with
              | .ok doc =>
                let db2 := updateAnalysis db1 id (fun r =>
                  { r with result := some doc, completedAt := some now,
                           status := "completed" })
                ({ code := 200, status := some "completed",
                   analysis := findAnalysis db2 id }, db2,
                 [.statusFetch statusUrl, .resultFetch resultUrl])
              | .notOk =>
                ({ code := 502, error := some "Failed to fetch result from analyzer" },
                 db1, [.statusFetch statusUrl, .resultFetch resultUrl])
              | .err =>
                ({ code := 500, error := some "Internal server error" }, db1,
                 [.statusFetch statusUrl, .resultFetch resultUrl])
            else
              ({ code := 200, status := sd.status, analysis := findAnalysis db1 id },
               db1, [.statusFetch statusUrl])

/-- URL normalization in the create handler:
`u ? (u.startsWith('http') ? u : base + u) : null`. -/
def normalizeUrl (u : Option String) : Option String :=
  match u with
  | some s =>
    if s = "" then none
    else if jsStartsWith s "http" then some s
    else some (analyzerBase ++ s)
  | none => none

/-- The Analysis record the create handler persists from a non-thrown
analyzer submit response (`analyzeData` is `none` when the body was not
JSON): `external_workspace_id: analyzeData?.workspace_id ?? null`,
`status: analyzeData?.status ?? 'pending'`, normalized URLs. -/
def analysisFromSubmit (body : Option AnalyzeData) : Analysis :=
  { external_workspace_id := body.bind (fun b => b.workspace_id),
    status := (match body.bind (fun b => b.status) with
      | some s => s
      | none => "pending"),
    status_url := normalizeUrl (body.bind (fun b => b.status_url)),
    result_url := normalizeUrl (body.bind (fun b => b.result_url)) }

/-- `POST /workspaces` (`src/pages/api/workspaces/create.ts`), POST branch.
`newId` is the cuid the store assigns to the new workspace; `submit` is the
analyzer's behaviour on the one `POST /api/analyze` call. -/
def createWorkspace (db : DB) (session : Option String)
    (name : Option String) (github_repository : Option String)
    (newId : String) (submit : SubmitOutcome) :
    CreateResp × DB × List NetCall :=
  match session with
  | none => ({ code := 401, error := some "Unauthorized" }, db, [])
  | some email =>
    match name with
    | none => ({ code := 400, error := some "Workspace name is required" }, db, [])
    | some nm =>
      if jsTrim nm = "" then
        ({ code := 400, error := some "Workspace name is required" }, db, [])
      else match github_repository with
      | none =>
        ({ code := 400, error := some "Invalid GitHub repository URL" }, db, [])
      | some repo =>
        if ¬ jsIncludes repo "github.com" then
          ({ code := 400, error := some "Invalid GitHub repository URL" }, db, [])
        else
          let w : Workspace :=
            { workspace_id := newId, name := jsTrim nm,
              github_repository := jsTrim repo, email := email }
          let db1 := insertWorkspace db w
          match submit with
          | .threw =>
            ({ code := 201, workspace := some w }, db1, [.submitFetch])
          | .returned _respOk body =>
            let a := analysisFromSubmit body
            let db2 := insertAnalysis db1 newId a
            ({ code := 201, workspace := some w,
               analysis := some { status := a.status, status_url := a.status_url,
                                  result_url := a.result_url,
                                  hasResult := a.result.isSome } },
             db2, [.submitFetch])

/-- `GET /workspaces/{id}` (`src/pages/api/workspaces/[id].ts`): pure read,
404 when the workspace is absent or owned by a different email. -/
def getWorkspace (db : DB) (id : String) (session : Option String) : GetResp :=
  if id = "" then { code := 400, error := some "Invalid id" }
  else match session with
  | none => { code := 401, error := some "Unauthorized" }
  | some email =>
    match findWorkspace db id with
    | none => { code := 404, error := some "Workspace not found" }
    | some w =>
      if w.email ≠ email then { code := 404, error := some "Workspace not found" }
      else { code := 200, workspace := some w, analysis := findAnalysis db id }

/-! ## Client polling loop (`src/pages/workspaces/[id].tsx`) -/

/-- Local state of the workspace page poller: `active` models
`pollingRef.current !== null` (the interval timer being installed). -/
structure PollerState where
  active : Bool
  loading : Bool
  error : Option String := none
  analysisView : Option Analysis := none
deriving DecidableEq

/-- Body seen by one interval tick of `pollStatus`: a non-ok HTTP response,
a parsed `{status?, analysis?}` body, or a thrown fetch error. -/
inductive PollResp where
  | httpError (msg : String)
  | ok (status : Option String) (analysis : Option Analysis)
  | threw
deriving DecidableEq

/-- Calls the page issues during one tick: the status poll itself and the
optional final one-shot workspace fetch. -/
inductive ClientCall where
  | statusCall
  | workspaceCall
deriving DecidableEq

/-- `data.status === 'completed' || (analysis && analysis.result)`:
the loop's terminal test on a successful body. -/
def terminalBody (status : Option String) (analysis : Option Analysis) : Bool :=
  status = some "completed" ||
    (match analysis with
     | some a => a.result.isSome
     | none => false)

/-- `pollStatus` entry: re-entrancy guard, then clear the error, set
loading, install the interval. -/
def pollStart (s : PollerState) : PollerState :=
  if s.active then s
  else { s with active := true, loading := true, error := none }

/-- One firing of the interval callback.  A tick only happens while the
interval is installed (`active`); an inactive state issues no call and does
not change.  Returns the new state and the calls issued. -/
def pollTick (s : PollerState) (r : PollResp) : PollerState × List ClientCall :=
  if ¬ s.active then (s, [])
  else match r with
  | .httpError msg =>
    ({ s with active := false, loading := false, error := some msg }, [.statusCall])
  | .threw =>
    ({ s with active := false, loading := false, error := some "Polling failed" },
     [.statusCall])
  | .ok st an =>
    let s1 := (match an with
      | some a => { s with analysisView := some a }
      | none => s)
    if terminalBody st an then
      ({ s1 with active := false, loading := false },
       [.statusCall] ++
         (if (match an with | some a => a.result.isSome | none => false)
          then [] else [.workspaceCall]))
    else (s1, [.statusCall])

/-- The unmount cleanup effect: `clearInterval` and null the ref. -/
def unmountCleanup (s : PollerState) : PollerState :=
  { s with active := false }

/-- Responses on which the loop stops: a completed status or an Analysis
with a non-null result, a non-ok HTTP response, or a thrown fetch. -/
def terminalEvent (r : PollResp) : Bool :=
  match r with
  | .httpError _ => true
  | .threw => true
  | .ok st an => terminalBody st an

/-! ## Reachable database states -/

/-- One server-side transition of the store: a `POST /workspaces` call or a
`GET /workspaces/{id}/status` call, with arbitrary request data and
analyzer behaviour.  (`GET /workspaces/{id}` is a pure read and changes
nothing.) -/
inductive Step : DB → DB → Prop where
  | create (db : DB) (session name repo : Option String) (newId : String)
      (submit : SubmitOutcome) :
      Step db (createWorkspace db session name repo newId submit).2.1
  | status (db : DB) (id : String) (session : Option String)
      (sr : Fetched StatusData) (rr : Fetched Doc) (now : Nat) :
      Step db (checkStatus db id session sr rr now).2.1

/-- Database states reachable from the empty store through the handlers. -/
def Reachable (db : DB) : Prop :=
  Relation.ReflTransGen Step DB.empty db

/-- The completion invariant: every stored Analysis has `completedAt` set
exactly when `result` is set. -/
def Inv (db : DB) : Prop :=
  ∀ id a, findAnalysis db id = some a → a.result.isSome = a.completedAt.isSome

/-! ## Concrete fixtures for counterexamples and witnesses -/

/-- A completed analysis document fixture. -/
def doc0 : Doc := "analysis-result-document"

/-- Analysis fixture with a stored result. -/
def aDone : Analysis :=
  { external_workspace_id := some "ext-1", status := "completed",
    result := some doc0, completedAt := some 5 }

/-- Analysis fixture mid-run: status `running`, progress 40, no result. -/
def aRun : Analysis :=
  { external_workspace_id := some "ext-1", status := "running",
    progress := some 40,
    status_url := some "http://0.0.0.0:8000/api/status/ext-1",
    result_url := some "http://0.0.0.0:8000/api/result/ext-1" }

/-- Store fixture: workspace `w1` owned by alice with a completed analysis. -/
def dbDone : DB :=
  { workspaces := fun j =>
      if j = "w1" then
        some { workspace_id := "w1", name := "demo",
               github_repository := "https://github.com/x/y",
               email := "alice@example.com" }
      else none,
    analyses := fun j => if j = "w1" then some aDone else none }

/-- Store fixture: workspace `w1` owned by alice, analysis mid-run. -/
def dbRun : DB :=
  { workspaces := dbDone.workspaces,
    analyses := fun j => if j = "w1" then some aRun else none }

/-- Store fixture: workspace `w1` owned by alice, no analysis record. -/
def dbNoAnalysis : DB :=
  { workspaces := dbDone.workspaces, analyses := fun _ => none }

/-- Store produced from the empty store by one successful create call. -/
def dbCreated : DB :=
  (createWorkspace DB.empty (some "alice@example.com") (some "demo")
    (some "https://github.com/x/y") "w1"
    (.returned true (some { workspace_id := some "ext-1",
                            status := some "pending" }))).2.1

/-! ## Store lemmas -/

theorem findAnalysis_insertWorkspace (db : DB) (w : Workspace) (j : String) :
    findAnalysis (insertWorkspace db w) j = findAnalysis db j := rfl

theorem findAnalysis_insertAnalysis (db : DB) (i : String) (a : Analysis) (j : String) :
    findAnalysis (insertAnalysis db i a) j =
      if j = i then some a else findAnalysis db j := rfl

theorem findAnalysis_updateAnalysis (db : DB) (i : String) (f : Analysis → Analysis)
    (j : String) :
    findAnalysis (updateAnalysis db i f) j =
      if j = i then (findAnalysis db j).map f else findAnalysis db j := rfl

/-! ## C1: completed analyses short-circuit `checkStatus` -/

/-- Claim C1: when the stored Analysis already carries a result,
`checkStatus` returns 200 with status `completed` and that stored Analysis,
leaves the store unchanged and issues no analyzer call — for every analyzer
behaviour, so repeated calls return the identical triple. -/
theorem checkStatus_completed_shortcircuit
    (db : DB) (id email : String) (a : Analysis) (r : Doc)
    (sr : Fetched StatusData) (rr : Fetched Doc) (now : Nat)
    (hid : id ≠ "") (ha : findAnalysis db id = some a) (hr : a.result = some r) :
    checkStatus db id (some email) sr rr now =
      ({ code := 200, status := some "completed", analysis := some a }, db, []) := by
  simp [checkStatus, hid, ha, hr]

/-- Witness for C1 at a concrete completed store. -/
theorem checkStatus_completed_shortcircuit_witness :
    checkStatus dbDone "w1" (some "alice@example.com") .notOk .err 9 =
      ({ code := 200, status := some "completed", analysis := some aDone }, dbDone, []) :=
  checkStatus_completed_shortcircuit dbDone "w1" "alice@example.com" aDone doc0
    .notOk .err 9 (by decide) (by decide) (by decide)

/-! ## C2: missing Analysis record -/

/-- Counterexample to C2 as stated: on a workspace with no Analysis record,
`checkStatus` does not return status `pending` — it returns HTTP 404 with
the error message `No analysis record`, which the polling client treats as
an error path. -/
theorem checkStatus_noRecord_counterexample :
    (checkStatus dbNoAnalysis "w1" (some "alice@example.com") .notOk .notOk 0).1.code
        = 404 ∧
    (checkStatus dbNoAnalysis "w1" (some "alice@example.com") .notOk .notOk 0).1.status
        ≠ some "pending" ∧
    (checkStatus dbNoAnalysis "w1" (some "alice@example.com") .notOk .notOk 0).1.error
        = some "No analysis record" := by
  refine ⟨by decide, by decide, by decide⟩

/-- Claim C2 (amended): for every workspace id with no Analysis record,
`checkStatus` returns HTTP 404 with error `No analysis record`, leaves the
store unchanged and issues no network call. -/
theorem checkStatus_noRecord_404
    (db : DB) (id email : String) (sr : Fetched StatusData) (rr : Fetched Doc)
    (now : Nat) (hid : id ≠ "") (ha : findAnalysis db id = none) :
    checkStatus db id (some email) sr rr now =
      ({ code := 404, error := some "No analysis record" }, db, []) := by
  simp [checkStatus, hid, ha]

/-- Witness for the amended C2 at a concrete store with no analysis. -/
theorem checkStatus_noRecord_404_witness :
    checkStatus dbNoAnalysis "w1" (some "alice@example.com") .err .err 3 =
      ({ code := 404, error := some "No analysis record" }, dbNoAnalysis, []) :=
  checkStatus_noRecord_404 dbNoAnalysis "w1" "alice@example.com" .err .err 3
    (by decide) (by decide)

/-! ## C3: the merge step -/

/-- Counterexample to C3 as stated: the analyzer's status field can be
present yet not adopted.  With stored status `running` and a status
response carrying `status: ""` (present, non-null), the persisted record
keeps `running` instead of the analyzer's value, because the source merges
status with `||`, which treats the empty string as absent. -/
theorem checkStatus_merge_emptyStatus_counterexample :
    (findAnalysis (checkStatus dbRun "w1" (some "alice@example.com")
        (.ok { status := some "" }) .err 0).2.1 "w1").map Analysis.status =
      some "running" ∧ some "running" ≠ some ("" : String) := by
  refine ⟨by decide, by decide⟩

/-- Claim C3 (amended): in the merge step, `progress`, `message` and
`current_step` are replaced by the analyzer's value only if present and
non-null, and `status` only if present and non-empty; otherwise the stored
value is kept (so a populated field never regresses to null), and the
merged values are persisted unconditionally — whatever the raw status and
the outcome of any subsequent result fetch. -/
theorem checkStatus_merge_rule
    (db : DB) (id email : String) (a : Analysis) (sd : StatusData)
    (rr : Fetched Doc) (now : Nat)
    (hid : id ≠ "") (ha : findAnalysis db id = some a) (hr : a.result = none)
    (hu : ¬(a.status_url = none ∧ a.external_workspace_id = none)) :
    ((findAnalysis (checkStatus db id (some email) (.ok sd) rr now).2.1 id).map
        Analysis.progress =
      some (match sd.progress with | some p => some p | none => a.progress)) ∧
    ((findAnalysis (checkStatus db id (some email) (.ok sd) rr now).2.1 id).map
        Analysis.message =
      some (match sd.message with | some m => some m | none => a.message)) ∧
    ((findAnalysis (checkStatus db id (some email) (.ok sd) rr now).2.1 id).map
        Analysis.current_step =
      some (match sd.current_step with | some c => some c | none => a.current_step)) ∧
    ((findAnalysis (checkStatus db id (some email) (.ok sd) rr now).2.1 id).map
        Analysis.status =
      some (match sd.status with
        | some s => if s = "" then a.status else s
        | none => a.status)) := by
  by_cases hc : sd.status = some "completed"
  · cases rr with
    | ok doc =>
      refine ⟨?_, ?_, ?_, ?_⟩ <;>
        simp [checkStatus, hid, ha, hr, hu, hc, findAnalysis_updateAnalysis,
          mergeStatus]
    | notOk =>
      refine ⟨?_, ?_, ?_, ?_⟩ <;>
        simp [checkStatus, hid, ha, hr, hu, hc, findAnalysis_updateAnalysis,
          mergeStatus]
    | err =>
      refine ⟨?_, ?_, ?_, ?_⟩ <;>
        simp [checkStatus, hid, ha, hr, hu, hc, findAnalysis_updateAnalysis,
          mergeStatus]
  · refine ⟨?_, ?_, ?_, ?_⟩ <;>
      simp [checkStatus, hid, ha, hr, hu, hc, findAnalysis_updateAnalysis,
        mergeStatus]

/-- Witness for the amended C3: stored progress 40, response omitting
progress — the persisted record keeps progress 40. -/
theorem checkStatus_merge_rule_witness :
    (findAnalysis (checkStatus dbRun "w1" (some "alice@example.com")
        (.ok { status := some "running" }) .err 0).2.1 "w1").map
      Analysis.progress = some (some 40) :=
  (checkStatus_merge_rule dbRun "w1" "alice@example.com" aRun
    { status := some "running" } .err 0 (by decide) (by decide) (by decide)
    (by decide)).1

/-! ## C4: upstream failures -/

/-- Claim C4: a non-success analyzer response makes `checkStatus` fail with
502.  A failing status fetch leaves the store completely untouched; a
failing result fetch happens after the status merge was committed, so the
store holds exactly the merged record, with `result` still null. -/
theorem checkStatus_upstream_failure
    (db : DB) (id email : String) (a : Analysis) (now : Nat)
    (hid : id ≠ "") (ha : findAnalysis db id = some a) (hr : a.result = none)
    (hu : ¬(a.status_url = none ∧ a.external_workspace_id = none)) :
    (∀ rr : Fetched Doc,
      checkStatus db id (some email) .notOk rr now =
        ({ code := 502, error := some "Failed to fetch status from analyzer" }, db,
         [.statusFetch (a.status_url.getD
            (analyzerBase ++ "/api/status/" ++ jsInterp a.external_workspace_id))])) ∧
    (∀ sd : StatusData, sd.status = some "completed" →
      checkStatus db id (some email) (.ok sd) .notOk now =
        ({ code := 502, error := some "Failed to fetch result from analyzer" },
         updateAnalysis db id (fun r =>
           { r with status := (mergeStatus sd a).status,
                    progress := (mergeStatus sd a).progress,
                    message := (mergeStatus sd a).message,
                    current_step := (mergeStatus sd a).current_step }),
         [.statusFetch (a.status_url.getD
            (analyzerBase ++ "/api/status/" ++ jsInterp a.external_workspace_id)),
          .resultFetch (a.result_url.getD
            (analyzerBase ++ "/api/result/" ++ jsInterp
              (match a.external_workspace_id with
               | some e => some e
               | none => sd.workspace_id)))]) ∧
      (findAnalysis (checkStatus db id (some email) (.ok sd) .notOk now).2.1 id).map
          Analysis.result = some none) := by
  constructor
  · intro rr
    simp [checkStatus, hid, ha, hr, hu]
  · intro sd hc
    refine ⟨?_, ?_⟩
    · simp [checkStatus, hid, ha, hr, hu, hc]
    · simp [checkStatus, hid, ha, hr, hu, hc, findAnalysis_updateAnalysis, hr]

/-- Witness for C4 at the mid-run fixture: a 503 status fetch leaves the
store untouched, and a failing result fetch after a completed status leaves
the committed merge with a null result. -/
theorem checkStatus_upstream_failure_witness :
    checkStatus dbRun "w1" (some "alice@example.com") .notOk .err 7 =
      ({ code := 502, error := some "Failed to fetch status from analyzer" }, dbRun,
       [.statusFetch "http://0.0.0.0:8000/api/status/ext-1"]) :=
  (checkStatus_upstream_failure dbRun "w1" "alice@example.com" aRun 7
    (by decide) (by decide) (by decide) (by decide)).1 .err

/-! ## C5: the completion invariant -/

theorem inv_empty : Inv DB.empty := by
  intro id a hid
  simp [findAnalysis, DB.empty] at hid

theorem inv_insertWorkspace (db : DB) (w : Workspace) (h : Inv db) :
    Inv (insertWorkspace db w) := h

theorem inv_insertAnalysis (db : DB) (i : String) (a : Analysis)
    (hA : a.result.isSome = a.completedAt.isSome) (h : Inv db) :
    Inv (insertAnalysis db i a) := by
  intro j b hj
  rw [findAnalysis_insertAnalysis] at hj
  by_cases hji : j = i
  · rw [if_pos hji] at hj
    cases hj
    exact hA
  · rw [if_neg hji] at hj
    exact h j b hj

theorem inv_updateAnalysis (db : DB) (i : String) (f : Analysis → Analysis)
    (hf : ∀ r, r.result.isSome = r.completedAt.isSome →
      (f r).result.isSome = (f r).completedAt.isSome)
    (h : Inv db) : Inv (updateAnalysis db i f) := by
  intro j b hj
  rw [findAnalysis_updateAnalysis] at hj
  by_cases hji : j = i
  · rw [if_pos hji] at hj
    match hfa : findAnalysis db j with
    | none => rw [hfa] at hj; cases hj
    | some r =>
      rw [hfa] at hj
      cases hj
      exact hf r (h j r hfa)
  · rw [if_neg hji] at hj
    exact h j b hj

theorem step_preserves_inv {db db' : DB} (h : Inv db) (hs : Step db db') : Inv db' := by
  cases hs with
  | create session name repo newId submit =>
    cases session with
    | none => exact h
    | some email =>
      cases name with
      | none => exact h
      | some nm =>
        by_cases hnm : jsTrim nm = ""
        · simpa [createWorkspace, hnm] using h
        · cases repo with
          | none => simpa [createWorkspace, hnm] using h
          | some rp =>
            by_cases hrp : jsIncludes rp "github.com"
            · cases submit with
              | threw =>
                simpa [createWorkspace, hnm, hrp] using
                  inv_insertWorkspace db _ h
              | returned respOk body =>
                have hA : (analysisFromSubmit body).result.isSome =
                    (analysisFromSubmit body).completedAt.isSome := rfl
                simpa [createWorkspace, hnm, hrp] using
                  inv_insertAnalysis (insertWorkspace db _) newId _ hA
                    (inv_insertWorkspace db _ h)
            · simpa [createWorkspace, hnm, hrp] using h
  | status id session sr rr now =>
    by_cases hid : id = ""
    · simpa [checkStatus, hid] using h
    · cases session with
      | none => simpa [checkStatus, hid] using h
      | some email =>
        match hfa : findAnalysis db id with
        | none => simpa [checkStatus, hid, hfa] using h
        | some a =>
          match hres : a.result with
          | some r => simpa [checkStatus, hid, hfa, hres] using h
          | none =>
            by_cases hurl : a.status_url = none ∧ a.external_workspace_id = none
            · simpa [checkStatus, hid, hfa, hres, hurl] using h
            · cases sr with
              | err => simpa [checkStatus, hid, hfa, hres, hurl] using h
              | notOk => simpa [checkStatus, hid, hfa, hres, hurl] using h
              | ok sd =>
                have hmerge : Inv (updateAnalysis db id (fun r =>
                    { r with status := (mergeStatus sd a).status,
                             progress := (mergeStatus sd a).progress,
                             message := (mergeStatus sd a).message,
                             current_step := (mergeStatus sd a).current_step })) :=
                  inv_updateAnalysis db id _ (fun r hr => hr) h
                by_cases hc : sd.status = some "completed"
                · cases rr with
                  | ok doc =>
                    simpa [checkStatus, hid, hfa, hres, hurl, hc] using
                      inv_updateAnalysis _ id (fun r =>
                        { r with result := some doc, completedAt := some now,
                                 status := "completed" })
                        (fun r _ => rfl) hmerge
                  | notOk => simpa [checkStatus, hid, hfa, hres, hurl, hc] using hmerge
                  | err => simpa [checkStatus, hid, hfa, hres, hurl, hc] using hmerge
                · simpa [checkStatus, hid, hfa, hres, hurl, hc] using hmerge

/-- Claim C5: in every store reachable through the handlers, `completedAt`
is non-null exactly when `result` is non-null — creation sets neither, the
status merge touches neither, and the completion update sets both in the
same single write. -/
theorem reachable_completedAt_iff_result (db : DB) (h : Reachable db) : Inv db := by
  induction h with
  | refl => exact inv_empty
  | tail _hsteps hstep ih => exact step_preserves_inv ih hstep

/-- Witness for C5 at the store reached by one successful create call. -/
theorem reachable_completedAt_iff_result_witness : Inv dbCreated :=
  reachable_completedAt_iff_result dbCreated
    (Relation.ReflTransGen.single
      (Step.create DB.empty (some "alice@example.com") (some "demo")
        (some "https://github.com/x/y") "w1"
        (.returned true (some { workspace_id := some "ext-1",
                                status := some "pending" }))))

/-! ## C6: ownership checks on reads -/

/-- Claim C6 fails on the code: `GET /workspaces/{id}` does evaluate the
ownership predicate (mallory requesting alice's workspace gets 404), but
`GET /workspaces/{id}/status` never consults the workspace owner — the same
request by mallory returns 200 with alice's full completed Analysis instead
of the 404 the claim requires. -/
theorem checkStatus_ownership_not_checked :
    (getWorkspace dbDone "w1" (some "mallory@example.com")).code = 404 ∧
    (checkStatus dbDone "w1" (some "mallory@example.com") .notOk .notOk 0).1 =
      { code := 200, status := some "completed", analysis := some aDone } := by
  refine ⟨by decide, by decide⟩

/-! ## C7: analyzer-submission failure during create -/

/-- Claim C7: when the analyzer submit call throws, the workspace creation
still succeeds — 201 with the workspace, the workspace row persisted, no
analysis summary in the response, and no Analysis record for the new
workspace; the error is swallowed. -/
theorem createWorkspace_submit_failure
    (db : DB) (email nm rp newId : String)
    (hnm : ¬ jsTrim nm = "") (hrp : jsIncludes rp "github.com" = true)
    (hfresh : findAnalysis db newId = none) :
    createWorkspace db (some email) (some nm) (some rp) newId .threw =
      ({ code := 201,
         workspace := some { workspace_id := newId, name := jsTrim nm,
                             github_repository := jsTrim rp, email := email } },
       insertWorkspace db { workspace_id := newId, name := jsTrim nm,
                            github_repository := jsTrim rp, email := email },
       [.submitFetch]) ∧
    findAnalysis
      (createWorkspace db (some email) (some nm) (some rp) newId .threw).2.1
      newId = none := by
  refine ⟨?_, ?_⟩ <;>
    simp [createWorkspace, hnm, hrp, insertWorkspace, hfresh, findAnalysis]
  exact hfresh

/-- Witness for C7 on the empty store. -/
theorem createWorkspace_submit_failure_witness :
    createWorkspace DB.empty (some "alice@example.com") (some "demo")
        (some "https://github.com/x/y") "w1" .threw =
      ({ code := 201,
         workspace := some { workspace_id := "w1", name := jsTrim "demo",
                             github_repository := jsTrim "https://github.com/x/y",
                             email := "alice@example.com" } },
       insertWorkspace DB.empty
         { workspace_id := "w1", name := jsTrim "demo",
           github_repository := jsTrim "https://github.com/x/y",
           email := "alice@example.com" },
       [.submitFetch]) ∧
    findAnalysis
      (createWorkspace DB.empty (some "alice@example.com") (some "demo")
        (some "https://github.com/x/y") "w1" .threw).2.1 "w1" = none :=
  createWorkspace_submit_failure DB.empty "alice@example.com" "demo"
    "https://github.com/x/y" "w1" (by decide) (by decide) (by decide)

/-! ## C8: URL normalization at Analysis creation -/

/-- Claim C8: the create handler stores `status_url` and `result_url` after
normalization — a relative path is prefixed with the analyzer's fixed base
endpoint, an URL already starting with `http` is stored unchanged. -/
theorem createWorkspace_url_normalization
    (db : DB) (email nm rp newId : String) (respOk : Bool) (bd : AnalyzeData)
    (hnm : ¬ jsTrim nm = "") (hrp : jsIncludes rp "github.com" = true) :
    (findAnalysis
        (createWorkspace db (some email) (some nm) (some rp) newId
          (.returned respOk (some bd))).2.1 newId).map Analysis.status_url =
      some (normalizeUrl bd.status_url) ∧
    (findAnalysis
        (createWorkspace db (some email) (some nm) (some rp) newId
          (.returned respOk (some bd))).2.1 newId).map Analysis.result_url =
      some (normalizeUrl bd.result_url) ∧
    (∀ s, ¬ s = "" → jsStartsWith s "http" = false →
      normalizeUrl (some s) = some (analyzerBase ++ s)) ∧
    (∀ s, ¬ s = "" → jsStartsWith s "http" = true →
      normalizeUrl (some s) = some s) := by
  refine ⟨?_, ?_, ?_, ?_⟩
  · simp [createWorkspace, hnm, hrp, findAnalysis_insertAnalysis,
      analysisFromSubmit]
  · simp [createWorkspace, hnm, hrp, findAnalysis_insertAnalysis,
      analysisFromSubmit]
  · intro s hs hpre
    simp [normalizeUrl, hs, hpre]
  · intro s hs hpre
    simp [normalizeUrl, hs, hpre]

/-- Witness for C8: a relative `status_url` is resolved against the base,
an absolute `result_url` is stored unchanged. -/
theorem createWorkspace_url_normalization_witness :
    (findAnalysis
        (createWorkspace DB.empty (some "alice@example.com") (some "demo")
          (some "https://github.com/x/y") "w1"
          (.returned true (some { status_url := some "/api/status/abc",
                                  result_url := some "http://h/r/abc" }))).2.1
        "w1").map Analysis.status_url =
      some (normalizeUrl (some "/api/status/abc")) ∧
    normalizeUrl (some "/api/status/abc") =
      some (analyzerBase ++ "/api/status/abc") ∧
    normalizeUrl (some "http://h/r/abc") = some "http://h/r/abc" := by
  have h := createWorkspace_url_normalization DB.empty "alice@example.com"
    "demo" "https://github.com/x/y" "w1" true
    { status_url := some "/api/status/abc", result_url := some "http://h/r/abc" }
    (by decide) (by decide)
  exact ⟨h.1, h.2.2.1 "/api/status/abc" (by decide) (by decide),
         h.2.2.2 "http://h/r/abc" (by decide) (by decide)⟩

/-! ## C9: polling loop termination and timer release -/

/-- Claim C9: a tick that observes a completed status, an Analysis with a
non-null result, a non-ok backend response or a thrown fetch clears the
interval; a cleared poller never fires again and issues no further
checkStatus call; and the unmount cleanup releases the timer from any
state. -/
theorem poller_terminal_cleanup
    (s : PollerState) (r : PollResp)
    (ha : s.active = true) (ht : terminalEvent r = true) :
    (pollTick s r).1.active = false ∧
    (∀ s2 : PollerState, s2.active = false → ∀ r2, pollTick s2 r2 = (s2, [])) ∧
    (∀ s3 : PollerState, (unmountCleanup s3).active = false) := by
  refine ⟨?_, ?_, ?_⟩
  · cases r with
    | httpError msg => simp [pollTick, ha]
    | threw => simp [pollTick, ha]
    | ok st an =>
      simp only [terminalEvent] at ht
      cases an with
      | none => simp [pollTick, ha, ht]
      | some a => simp [pollTick, ha, ht]
  · intro s2 h2 r2
    simp [pollTick, h2]
  · intro s3
    rfl

/-- Witness for C9: an active poller observing a completed status stops. -/
theorem poller_terminal_cleanup_witness :
    (pollTick { active := true, loading := true }
        (.ok (some "completed") none)).1.active = false ∧
    (∀ s2 : PollerState, s2.active = false → ∀ r2, pollTick s2 r2 = (s2, [])) ∧
    (∀ s3 : PollerState, (unmountCleanup s3).active = false) :=
  poller_terminal_cleanup { active := true, loading := true }
    (.ok (some "completed") none) rfl (by decide)

/-! ## C10: the submit HTTP status is never inspected -/

/-- Claim C10: the create handler's behaviour is identical for success and
non-success analyzer HTTP statuses; every non-thrown response yields a
persisted Analysis built from the parsed body, a non-JSON body yields the
pending record with null external id and URLs, and only a thrown fetch
leaves no Analysis record. -/
theorem createWorkspace_ignores_http_status
    (db : DB) (email nm rp newId : String)
    (hnm : ¬ jsTrim nm = "") (hrp : jsIncludes rp "github.com" = true)
    (hfresh : findAnalysis db newId = none) :
    (∀ body, createWorkspace db (some email) (some nm) (some rp) newId
        (.returned true body) =
      createWorkspace db (some email) (some nm) (some rp) newId
        (.returned false body)) ∧
    (∀ respOk body, findAnalysis
        (createWorkspace db (some email) (some nm) (some rp) newId
          (.returned respOk body)).2.1 newId = some (analysisFromSubmit body)) ∧
    (analysisFromSubmit none =
      { external_workspace_id := none, status := "pending",
        status_url := none, result_url := none }) ∧
    (findAnalysis
        (createWorkspace db (some email) (some nm) (some rp) newId .threw).2.1
        newId = none) := by
  refine ⟨?_, ?_, rfl, ?_⟩
  · intro body
    rfl
  · intro respOk body
    simp [createWorkspace, hnm, hrp, findAnalysis_insertAnalysis]
  · simp [createWorkspace, hnm, hrp, insertWorkspace, findAnalysis]
    exact hfresh

/-- Witness for C10: a non-success submit response with a JSON body still
persists the Analysis built from that body. -/
theorem createWorkspace_ignores_http_status_witness :
    findAnalysis
        (createWorkspace DB.empty (some "alice@example.com") (some "demo")
          (some "https://github.com/x/y") "w1"
          (.returned false (some { workspace_id := some "ext-1",
                                   status := some "pending" }))).2.1 "w1" =
      some (analysisFromSubmit (some { workspace_id := some "ext-1",
                                       status := some "pending" })) :=
  (createWorkspace_ignores_http_status DB.empty "alice@example.com" "demo"
    "https://github.com/x/y" "w1" (by decide) (by decide) (by decide)).2.1
    false (some { workspace_id := some "ext-1", status := some "pending" })

end Tightrope
